import Mathlib

/-!
Verification of the sdcomms schematic-element library.

The file shallowly embeds the geometry computed by `src/sdcomms/comms.py`:
each element constructor becomes a Lean function producing the outline
polygon, the named anchor points and the drop point of the element, with
Python floats modelled as rationals.  Anchor dictionaries are modelled as
association lists; the anchor-name strings `"N0"`, `"E3"`, ... are modelled
by the pair of the compass direction and the integer index (the string
rendering of such a pair is injective, and the drop-point lookup
`self.anchors[f"E{numE - 1}"]` may produce a negative index, hence the
`Int` component).  A failing dictionary lookup during construction (the
`KeyError` a Python caller would see) is modelled by the constructor
returning `none`.  The `random.random()` calls inside the instrument
waveform decorations are modelled by an explicit stream `rng : Nat → ℚ`
of samples, consumed in call order; `math.sin` (a transcendental the
claims never inspect) is abstracted as a stream parameter as well.
-/

namespace SDComms

/-- A 2-D point in the element's local coordinate frame. -/
structure Point where
  x : ℚ
  y : ℚ
  deriving DecidableEq, Repr

/-- Compass direction used as the prefix of a `Rectangle`/`MUX` anchor name. -/
inductive Dir
  | N | S | E | W
  deriving DecidableEq, Repr

/-- An anchor name `f"{dir}{index}"`: the direction together with the index. -/
abbrev AnchorKey := Dir × Int

/-- Association-list lookup, modelling the Python dictionary lookup on the
anchor mapping (all keys inserted by the constructors are distinct). -/
def alookup {κ : Type} [DecidableEq κ] (k : κ) : List (κ × Point) → Option Point
  | [] => none
  | (k', p) :: rest => if k = k' then some p else alookup k rest

/-- The anchors placed on one edge: `for i in range(n): anchors[f"{d}{i}"] = f i`. -/
def edgeAnchors (d : Dir) (n : Nat) (f : Nat → Point) : List (AnchorKey × Point) :=
  (List.range n).map fun (i : Nat) => ((d, (i : Int)), f i)

/-- North-edge anchor `N{i} = ((i+1)*width/(numN+1), height/2)`
(comms.py lines 154-158). -/
def rectN (width height : ℚ) (numN : Nat) (i : Nat) : Point :=
  ⟨((i : ℚ) + 1) * width / ((numN : ℚ) + 1), height / 2⟩

/-- South-edge anchor `S{i} = ((i+1)*width/(numS+1), -height/2)`
(comms.py lines 160-164). -/
def rectS (width height : ℚ) (numS : Nat) (i : Nat) : Point :=
  ⟨((i : ℚ) + 1) * width / ((numS : ℚ) + 1), -(height / 2)⟩

/-- East-edge anchor `E{i} = (width, (i+1)*height/(numE+1) - height/2)`
(comms.py lines 166-170). -/
def rectE (width height : ℚ) (numE : Nat) (i : Nat) : Point :=
  ⟨width, ((i : ℚ) + 1) * height / ((numE : ℚ) + 1) - height / 2⟩

/-- West-edge anchor `W{i} = (0, (i+1)*height/(numW+1) - height/2)`
(comms.py lines 172-176). -/
def rectWf (width height : ℚ) (numW : Nat) (i : Nat) : Point :=
  ⟨0, ((i : ℚ) + 1) * height / ((numW : ℚ) + 1) - height / 2⟩

/-- The four `for i in range(...)` anchor loops of `Rectangle.__init__`,
in insertion order N, S, E, W. -/
def rectAnchors (width height : ℚ) (numN numS numE numW : Nat) :
    List (AnchorKey × Point) :=
  edgeAnchors Dir.N numN (rectN width height numN) ++
    (edgeAnchors Dir.S numS (rectS width height numS) ++
      (edgeAnchors Dir.E numE (rectE width height numE) ++
        edgeAnchors Dir.W numW (rectWf width height numW)))

/-- The closed outline `SegmentPoly` appended by `Rectangle.__init__`
(comms.py lines 139-150). -/
def rectPolygon (width height : ℚ) : List Point :=
  [⟨0, -(height / 2)⟩, ⟨width, -(height / 2)⟩, ⟨width, height / 2⟩,
    ⟨0, height / 2⟩, ⟨0, -(height / 2)⟩]

/-- The state of a constructed `Rectangle` element. -/
structure Rectangle where
  width : ℚ
  height : ℚ
  numN : Nat
  numS : Nat
  numE : Nat
  numW : Nat
  polygon : List Point
  anchors : List (AnchorKey × Point)
  drop : Point
  deriving DecidableEq, Repr

/-- Model of `Rectangle.__init__` (comms.py lines 119-178): builds the outline
and the anchors, then sets the drop point by the dictionary lookup
`self.anchors[f"E{numE - 1}"]`; a failing lookup (`KeyError`) is `none`. -/
def Rectangle.make (width height : ℚ) (numN numS numE numW : Nat) : Option Rectangle :=
  match alookup (Dir.E, (numE : Int) - 1) (rectAnchors width height numN numS numE numW) with
  | some d => some ⟨width, height, numN, numS, numE, numW, rectPolygon width height,
      rectAnchors width height numN numS numE numW, d⟩
  | none => none

/-- Model of `CouplerDot.__init__` (comms.py lines 436-450): a `Rectangle`
with `width=0, height=0, numN=numS=numE=numW=1`. -/
def couplerDotMake : Option Rectangle := Rectangle.make 0 0 1 1 1 1

/-- Constant `height1 = 2.5` in `MUX.__init__`. -/
def muxHeight1 : ℚ := 5 / 2

/-- Constant `height2 = 1` in `MUX.__init__`. -/
def muxHeight2 : ℚ := 1

/-- Constant `width = 1` in `MUX.__init__`. -/
def muxWidth : ℚ := 1

/-- East-edge anchor of the MUX: `(width, (i+1)*height2/(numE+1) - height2/2)`
(comms.py lines 312-316). -/
def muxE (numE : Nat) (i : Nat) : Point :=
  ⟨muxWidth, ((i : ℚ) + 1) * muxHeight2 / ((numE : ℚ) + 1) - muxHeight2 / 2⟩

/-- West-edge anchor of the MUX: `(0, (i+1)*height1/(numW+1) - height1/2)`
(comms.py lines 318-322). -/
def muxWf (numW : Nat) (i : Nat) : Point :=
  ⟨0, ((i : ℚ) + 1) * muxHeight1 / ((numW : ℚ) + 1) - muxHeight1 / 2⟩

/-- The two anchor loops of `MUX.__init__`, in insertion order E, W. -/
def muxAnchors (numE numW : Nat) : List (AnchorKey × Point) :=
  edgeAnchors Dir.E numE (muxE numE) ++ edgeAnchors Dir.W numW (muxWf numW)

/-- The trapezoidal outline `SegmentPoly` of `MUX.__init__` (comms.py 299-310). -/
def muxPolygon : List Point :=
  [⟨0, muxHeight1 / 2⟩, ⟨muxWidth, muxHeight2 / 2⟩, ⟨muxWidth, -(muxHeight2 / 2)⟩,
    ⟨0, -(muxHeight1 / 2)⟩, ⟨0, muxHeight1 / 2⟩]

/-- The state of a constructed `MUX` element. -/
structure MUX where
  numE : Nat
  numW : Nat
  polygon : List Point
  anchors : List (AnchorKey × Point)
  drop : Point
  deriving DecidableEq, Repr

/-- Model of `MUX.__init__` (comms.py lines 292-329): anchors plus the drop
lookup `self.anchors[f"E{numE - 1}"]`. -/
def MUX.make (numE numW : Nat) : Option MUX :=
  match alookup (Dir.E, (numE : Int) - 1) (muxAnchors numE numW) with
  | some d => some ⟨numE, numW, muxPolygon, muxAnchors numE numW, d⟩
  | none => none

/-- Predicate: `p` lies on one of the four edges of the rectangle
`[0,width] × [-height/2, height/2]` (top, bottom, right, left). -/
def onEdge (width height : ℚ) (p : Point) : Prop :=
  (p.y = height / 2 ∧ 0 ≤ p.x ∧ p.x ≤ width) ∨
  (p.y = -(height / 2) ∧ 0 ≤ p.x ∧ p.x ≤ width) ∨
  (p.x = width ∧ -(height / 2) ≤ p.y ∧ p.y ≤ height / 2) ∨
  (p.x = 0 ∧ -(height / 2) ≤ p.y ∧ p.y ≤ height / 2)

instance (width height : ℚ) (p : Point) : Decidable (onEdge width height p) := by
  unfold onEdge
  infer_instance

/-- Anchors of `Bend90.__init__` (comms.py lines 44-45). -/
def bend90Anchors (radius : ℚ) : List (String × Point) :=
  [("in", ⟨radius, 0⟩), ("out", ⟨0, radius⟩)]

/-- Anchors of `Bend180.__init__` (comms.py lines 73-74). -/
def bend180Anchors (radius : ℚ) : List (String × Point) :=
  [("in", ⟨radius, 0⟩), ("out", ⟨-radius, 0⟩)]

/-- Constant `self.radius = 0.19` in `PolCtrl.__init__`. -/
def polCtrlRadius : ℚ := 19 / 100

/-- Constant `self.length = self.radius * 6` in `PolCtrl.__init__`. -/
def polCtrlLength : ℚ := polCtrlRadius * 6

/-- Anchors of `PolCtrl.__init__` (comms.py lines 566-567). -/
def polCtrlAnchors : List (String × Point) :=
  [("in", ⟨0, 0⟩), ("out", ⟨polCtrlLength, 0⟩)]

/-- Constant `self.width = 0.7` in `VOA.__init__`. -/
def voaWidth : ℚ := 7 / 10

/-- Anchors of `VOA.__init__` (comms.py lines 615-616). -/
def voaAnchors : List (String × Point) :=
  [("W", ⟨0, 0⟩), ("E", ⟨voaWidth, 0⟩)]

/-- A drawing primitive appended to an element's segment list. -/
inductive Seg
  | line (pts : List Point)
  | poly (pts : List Point)
  | circle (center : Point) (radius : ℚ)
  deriving DecidableEq, Repr

/-- Constant `disp_x_offset = 0.2` of the instrument faceplates. -/
def dispXOffset : ℚ := 1 / 5

/-- Constant `disp_y_offset = -0.35` of the instrument faceplates. -/
def dispYOffset : ℚ := -(7 / 20)

/-- Constant `disp_width = 1.1` of the instrument faceplates. -/
def dispWidth : ℚ := 11 / 10

/-- Constant `disp_height = 0.7` of the instrument faceplates. -/
def dispHeight : ℚ := 7 / 10

/-- Fixed faceplate decorations shared by `OSA`, `ESA` and `Scope`: the
display polygon, the knob circle, and the three buttons
(button constants `0.1, 0.1, 1.55, -0.5, 0.1`). -/
def screenSegs : List Seg :=
  [Seg.poly [⟨dispXOffset, dispYOffset + dispHeight⟩,
      ⟨dispXOffset + dispWidth, dispYOffset + dispHeight⟩,
      ⟨dispXOffset + dispWidth, dispYOffset⟩, ⟨dispXOffset, dispYOffset⟩],
   Seg.circle ⟨8 / 5, 7 / 20⟩ (1 / 10)] ++
    (List.range 3).map fun (i : Nat) =>
      Seg.poly [⟨31 / 20, -(1 / 2) + (i : ℚ) * (1 / 5)⟩,
        ⟨31 / 20 + 1 / 10, -(1 / 2) + (i : ℚ) * (1 / 5)⟩,
        ⟨31 / 20 + 1 / 10, -(1 / 2) + (i : ℚ) * (1 / 5) + 1 / 10⟩,
        ⟨31 / 20, -(1 / 2) + (i : ℚ) * (1 / 5) + 1 / 10⟩]

/-- One iteration of `OSA.__init__._make_spectrum` (length 150): inside the
window `length//2 - 5 < x < length//2 + 5` the triangular peak is drawn,
otherwise one pseudo-random sample `rng c` is consumed
(comms.py lines 995-1005). Returns the `y` value and the updated counter. -/
def osaY (rng : Nat → ℚ) (x c : Nat) : ℚ × Nat :=
  if 70 < x ∧ x < 80 then
    ((4 / 5) * dispHeight * (1 - |(x : ℚ) - 75| / 5), c)
  else
    ((1 / 5) * dispHeight * (rng c - 1 / 2), c + 1)

/-- The point list built by `OSA.__init__._make_spectrum`, recursing over the
remaining count with the current `x` and the sample counter `c`. -/
def osaSpectrumAux (rng : Nat → ℚ) : Nat → Nat → Nat → List Point
  | 0, _, _ => []
  | n + 1, x, c =>
      ⟨(x : ℚ) / 150 * (4 / 5) * dispWidth, (4 / 5) * (osaY rng x c).1⟩ ::
        osaSpectrumAux rng n (x + 1) (osaY rng x c).2

/-- The shifted spectrum path of `OSA.__init__` (comms.py lines 1007-1012). -/
def osaSpectrum (rng : Nat → ℚ) : List Point :=
  (osaSpectrumAux rng 150 0 0).map fun p =>
    ⟨p.x + dispXOffset + (1 / 10) * dispWidth, p.y + dispYOffset + 3 / 20⟩

/-- Constant `peaks = [length//4, length//2, 3*length//4]` with
`amplitudes = [0.5, 0.7, 0.5]` of `ESA.__init__._make_spectrum` (length 200). -/
def esaPeaks : List (Nat × ℚ) := [(50, 1 / 2), (100, 7 / 10), (150, 1 / 2)]

/-- The inner `for peak, amplitude in zip(peaks, amplitudes)` loop of
`ESA.__init__._make_spectrum` (comms.py lines 1134-1140): accumulates `y`,
consuming one pseudo-random sample per peak whose window misses `x`. -/
def esaJitter (rng : Nat → ℚ) (x : Nat) : List (Nat × ℚ) → ℚ × Nat → ℚ × Nat
  | [], yc => yc
  | (peak, amp) :: rest, (y, c) =>
      if peak - 5 < x ∧ x < peak + 5 then
        esaJitter rng x rest (y + amp * dispHeight * (1 - |(x : ℚ) - (peak : ℚ)| / 5), c)
      else
        esaJitter rng x rest (y + (2 / 25) * dispHeight * (rng c - 1 / 2), c + 1)

/-- The point list built by `ESA.__init__._make_spectrum`. -/
def esaSpectrumAux (rng : Nat → ℚ) : Nat → Nat → Nat → List Point
  | 0, _, _ => []
  | n + 1, x, c =>
      ⟨(x : ℚ) / 200 * (4 / 5) * dispWidth, (9 / 10) * (esaJitter rng x esaPeaks (0, c)).1⟩ ::
        esaSpectrumAux rng n (x + 1) (esaJitter rng x esaPeaks (0, c)).2

/-- The shifted spectrum path of `ESA.__init__` (comms.py lines 1144-1152). -/
def esaSpectrum (rng : Nat → ℚ) : List Point :=
  (esaSpectrumAux rng 200 0 0).map fun p =>
    ⟨p.x + dispXOffset + (1 / 10) * dispWidth, p.y + dispYOffset + 3 / 20⟩

/-- The waveform of `Scope.__init__._make_noisy_sine` (length 120,
comms.py lines 1405-1421): `sine x` abstracts the transcendental
`math.sin(2*pi*x/length)`, and each `x` consumes exactly one
pseudo-random sample `rng x`; the shift `disp_y_offset + disp_height/2`
is applied afterwards. -/
def scopeWave (sine rng : Nat → ℚ) : List Point :=
  ((List.range 120).map fun (x : Nat) =>
      (⟨(x : ℚ) / 120 * (4 / 5) * dispWidth,
        (11 / 20) * ((1 / 2) * dispHeight * sine x +
          (3 / 10) * dispHeight * (rng x - 1 / 2))⟩ : Point)).map
    fun p => ⟨p.x + dispXOffset + (1 / 10) * dispWidth,
      p.y + dispYOffset + dispHeight / 2⟩

/-- The state of a constructed `OSA` element: the underlying `Rectangle`,
the fixed faceplate decorations, and the randomized spectrum path. -/
structure OSA where
  base : Rectangle
  screen : List Seg
  spectrum : List Point
  deriving DecidableEq, Repr

/-- Model of `OSA.__init__` (comms.py lines 920-1014). -/
def OSA.make (rng : Nat → ℚ) (width height : ℚ) (numN numS numE numW : Nat) :
    Option OSA :=
  match Rectangle.make width height numN numS numE numW with
  | some r => some ⟨r, screenSegs, osaSpectrum rng⟩
  | none => none

/-- The state of a constructed `ESA` element. -/
structure ESA where
  base : Rectangle
  screen : List Seg
  spectrum : List Point
  deriving DecidableEq, Repr

/-- Model of `ESA.__init__` (comms.py lines 1053-1154). -/
def ESA.make (rng : Nat → ℚ) (width height : ℚ) (numN numS numE numW : Nat) :
    Option ESA :=
  match Rectangle.make width height numN numS numE numW with
  | some r => some ⟨r, screenSegs, esaSpectrum rng⟩
  | none => none

/-- The state of a constructed `Scope` element. -/
structure Scope where
  base : Rectangle
  screen : List Seg
  wave : List Point
  deriving DecidableEq, Repr

/-- Model of `Scope.__init__` (comms.py lines 1331-1421). -/
def Scope.make (sine rng : Nat → ℚ) (width height : ℚ) (numN numS numE numW : Nat) :
    Option Scope :=
  match Rectangle.make width height numN numS numE numW with
  | some r => some ⟨r, screenSegs, scopeWave sine rng⟩
  | none => none

/-- The rectangle produced by `Rectangle(width=2, height=2, numN=1, numS=3,
numE=1, numW=1)`, used as a concrete instance. -/
def rectWit1 : Rectangle :=
  ⟨2, 2, 1, 3, 1, 1, rectPolygon 2 2, rectAnchors 2 2 1 3 1 1, rectE 2 2 1 0⟩

/-- The rectangle produced by `Rectangle(width=1, height=1, numE=2)`,
used as a concrete instance. -/
def rectWit2 : Rectangle :=
  ⟨1, 1, 1, 1, 2, 1, rectPolygon 1 1, rectAnchors 1 1 1 1 2 1, rectE 1 1 2 1⟩

/-- The rectangle produced by `Rectangle(width=1, height=1, numE=2, numW=2)`,
used as a concrete instance. -/
def rectWit4 : Rectangle :=
  ⟨1, 1, 1, 1, 2, 2, rectPolygon 1 1, rectAnchors 1 1 1 1 2 2, rectE 1 1 2 1⟩

/-- The MUX produced by `MUX(numE=2, numW=1)`, used as a concrete instance. -/
def muxWit : MUX := ⟨2, 1, muxPolygon, muxAnchors 2 1, muxE 2 1⟩

/-! ## Lookup lemmas -/

theorem edgeAnchors_zero (d : Dir) (f : Nat → Point) : edgeAnchors d 0 f = [] := rfl

theorem edgeAnchors_succ (d : Dir) (n : Nat) (f : Nat → Point) :
    edgeAnchors d (n + 1) f = edgeAnchors d n f ++ [((d, (n : Int)), f n)] := by
  simp [edgeAnchors, List.range_succ]

theorem alookup_append_some {κ : Type} [DecidableEq κ] {k : κ} {l1 : List (κ × Point)}
    {p : Point} (h : alookup k l1 = some p) (l2 : List (κ × Point)) :
    alookup k (l1 ++ l2) = some p := by
  induction l1 with
  | nil => simp [alookup] at h
  | cons a t ih =>
      obtain ⟨k', q⟩ := a
      by_cases hk : k = k'
      · simp only [alookup, if_pos hk] at h
        simp only [List.cons_append, alookup, if_pos hk]
        exact h
      · simp only [alookup, if_neg hk] at h
        simp only [List.cons_append, alookup, if_neg hk]
        exact ih h

theorem alookup_append_none {κ : Type} [DecidableEq κ] {k : κ} {l1 : List (κ × Point)}
    (h : alookup k l1 = none) (l2 : List (κ × Point)) :
    alookup k (l1 ++ l2) = alookup k l2 := by
  induction l1 with
  | nil => rfl
  | cons a t ih =>
      obtain ⟨k', q⟩ := a
      by_cases hk : k = k'
      · simp [alookup, hk] at h
      · simp only [alookup, if_neg hk] at h
        simp only [List.cons_append, alookup, if_neg hk]
        exact ih h

theorem alookup_edge_none (k : AnchorKey) (d : Dir) (n : Nat) (f : Nat → Point)
    (h : ∀ i : Nat, i < n → k ≠ (d, (i : Int))) :
    alookup k (edgeAnchors d n f) = none := by
  induction n with
  | zero => rfl
  | succ m ih =>
      rw [edgeAnchors_succ,
        alookup_append_none (ih fun i hi => h i (Nat.lt_succ_of_lt hi))]
      simp [alookup, h m (Nat.lt_succ_self m)]

theorem alookup_edge_ne_dir {d' : Dir} {k : Int} {d : Dir} (hd : d' ≠ d)
    (n : Nat) (f : Nat → Point) :
    alookup (d', k) (edgeAnchors d n f) = none :=
  alookup_edge_none _ _ _ _ (fun i _ => by simp [hd])

theorem alookup_edge_self (d : Dir) (n : Nat) (f : Nat → Point) (j : Nat) (hj : j < n) :
    alookup (d, (j : Int)) (edgeAnchors d n f) = some (f j) := by
  induction n with
  | zero => exact absurd hj (Nat.not_lt_zero j)
  | succ m ih =>
      rw [edgeAnchors_succ]
      rcases Nat.lt_succ_iff_lt_or_eq.mp hj with h | h
      · exact alookup_append_some (ih h) _
      · subst h
        have hnone : alookup (d, (j : Int)) (edgeAnchors d j f) = none :=
          alookup_edge_none _ _ _ _ (fun i hi => by simp; omega)
        rw [alookup_append_none hnone]
        simp [alookup]

theorem alookup_rect_N (width height : ℚ) (numN numS numE numW : Nat) (k : Int) :
    alookup (Dir.N, k) (rectAnchors width height numN numS numE numW) =
      alookup (Dir.N, k) (edgeAnchors Dir.N numN (rectN width height numN)) := by
  unfold rectAnchors
  rcases hl : alookup (Dir.N, k) (edgeAnchors Dir.N numN (rectN width height numN)) with _ | p
  · rw [alookup_append_none hl, alookup_append_none (alookup_edge_ne_dir (by decide) _ _),
      alookup_append_none (alookup_edge_ne_dir (by decide) _ _),
      alookup_edge_ne_dir (by decide)]
  · rw [alookup_append_some hl]

theorem alookup_rect_S (width height : ℚ) (numN numS numE numW : Nat) (k : Int) :
    alookup (Dir.S, k) (rectAnchors width height numN numS numE numW) =
      alookup (Dir.S, k) (edgeAnchors Dir.S numS (rectS width height numS)) := by
  unfold rectAnchors
  rw [alookup_append_none (alookup_edge_ne_dir (by decide) _ _)]
  rcases hl : alookup (Dir.S, k) (edgeAnchors Dir.S numS (rectS width height numS)) with _ | p
  · rw [alookup_append_none hl, alookup_append_none (alookup_edge_ne_dir (by decide) _ _),
      alookup_edge_ne_dir (by decide)]
  · rw [alookup_append_some hl]

theorem alookup_rect_E (width height : ℚ) (numN numS numE numW : Nat) (k : Int) :
    alookup (Dir.E, k) (rectAnchors width height numN numS numE numW) =
      alookup (Dir.E, k) (edgeAnchors Dir.E numE (rectE width height numE)) := by
  unfold rectAnchors
  rw [alookup_append_none (alookup_edge_ne_dir (by decide) _ _),
    alookup_append_none (alookup_edge_ne_dir (by decide) _ _)]
  rcases hl : alookup (Dir.E, k) (edgeAnchors Dir.E numE (rectE width height numE)) with _ | p
  · rw [alookup_append_none hl, alookup_edge_ne_dir (by decide)]
  · rw [alookup_append_some hl]

theorem alookup_rect_W (width height : ℚ) (numN numS numE numW : Nat) (k : Int) :
    alookup (Dir.W, k) (rectAnchors width height numN numS numE numW) =
      alookup (Dir.W, k) (edgeAnchors Dir.W numW (rectWf width height numW)) := by
  unfold rectAnchors
  rw [alookup_append_none (alookup_edge_ne_dir (by decide) _ _),
    alookup_append_none (alookup_edge_ne_dir (by decide) _ _),
    alookup_append_none (alookup_edge_ne_dir (by decide) _ _)]

theorem alookup_rect_N_self (width height : ℚ) (numN numS numE numW : Nat)
    (i : Nat) (hi : i < numN) :
    alookup (Dir.N, (i : Int)) (rectAnchors width height numN numS numE numW) =
      some (rectN width height numN i) := by
  rw [alookup_rect_N, alookup_edge_self _ _ _ i hi]

theorem alookup_rect_S_self (width height : ℚ) (numN numS numE numW : Nat)
    (i : Nat) (hi : i < numS) :
    alookup (Dir.S, (i : Int)) (rectAnchors width height numN numS numE numW) =
      some (rectS width height numS i) := by
  rw [alookup_rect_S, alookup_edge_self _ _ _ i hi]

theorem alookup_rect_E_self (width height : ℚ) (numN numS numE numW : Nat)
    (i : Nat) (hi : i < numE) :
    alookup (Dir.E, (i : Int)) (rectAnchors width height numN numS numE numW) =
      some (rectE width height numE i) := by
  rw [alookup_rect_E, alookup_edge_self _ _ _ i hi]

theorem alookup_rect_W_self (width height : ℚ) (numN numS numE numW : Nat)
    (i : Nat) (hi : i < numW) :
    alookup (Dir.W, (i : Int)) (rectAnchors width height numN numS numE numW) =
      some (rectWf width height numW i) := by
  rw [alookup_rect_W, alookup_edge_self _ _ _ i hi]

/-- Destructing a successful `Rectangle.make`. -/
theorem rectMake_spec {width height : ℚ} {numN numS numE numW : Nat} {r : Rectangle}
    (hr : Rectangle.make width height numN numS numE numW = some r) :
    r.width = width ∧ r.height = height ∧
    r.polygon = rectPolygon width height ∧
    r.anchors = rectAnchors width height numN numS numE numW ∧
    alookup (Dir.E, (numE : Int) - 1) r.anchors = some r.drop := by
  unfold Rectangle.make at hr
  split at hr
  next d hl =>
    cases hr
    exact ⟨rfl, rfl, rfl, rfl, hl⟩
  next => cases hr

/-- Construction succeeds whenever `numE ≥ 1`, with fully determined fields. -/
theorem rectMake_isSome {width height : ℚ} {numN numS numE numW : Nat}
    (hE : 1 ≤ numE) :
    Rectangle.make width height numN numS numE numW =
      some ⟨width, height, numN, numS, numE, numW, rectPolygon width height,
        rectAnchors width height numN numS numE numW,
        rectE width height numE (numE - 1)⟩ := by
  have h1 : (numE : Int) - 1 = ((numE - 1 : Nat) : Int) := by omega
  have hl : alookup (Dir.E, (numE : Int) - 1)
      (rectAnchors width height numN numS numE numW) =
        some (rectE width height numE (numE - 1)) := by
    rw [h1, alookup_rect_E_self _ _ _ _ _ _ _ (by omega)]
  unfold Rectangle.make
  rw [hl]

theorem alookup_mux_E (numE numW : Nat) (k : Int) :
    alookup (Dir.E, k) (muxAnchors numE numW) =
      alookup (Dir.E, k) (edgeAnchors Dir.E numE (muxE numE)) := by
  unfold muxAnchors
  rcases hl : alookup (Dir.E, k) (edgeAnchors Dir.E numE (muxE numE)) with _ | p
  · rw [alookup_append_none hl, alookup_edge_ne_dir (by decide)]
  · rw [alookup_append_some hl]

/-- Destructing a successful `MUX.make`. -/
theorem muxMake_spec {numE numW : Nat} {m : MUX}
    (hm : MUX.make numE numW = some m) :
    m.polygon = muxPolygon ∧ m.anchors = muxAnchors numE numW ∧
    alookup (Dir.E, (numE : Int) - 1) m.anchors = some m.drop := by
  unfold MUX.make at hm
  split at hm
  next d hl =>
    cases hm
    exact ⟨rfl, rfl, hl⟩
  next => cases hm

/-- MUX construction succeeds whenever `numE ≥ 1`. -/
theorem muxMake_isSome {numE numW : Nat} (hE : 1 ≤ numE) :
    MUX.make numE numW =
      some ⟨numE, numW, muxPolygon, muxAnchors numE numW, muxE numE (numE - 1)⟩ := by
  have h1 : (numE : Int) - 1 = ((numE - 1 : Nat) : Int) := by omega
  have hl : alookup (Dir.E, (numE : Int) - 1) (muxAnchors numE numW) =
      some (muxE numE (numE - 1)) := by
    rw [h1, alookup_mux_E, alookup_edge_self _ _ _ _ (by omega)]
  unfold MUX.make
  rw [hl]

/-- With `numE = 0` the drop-point lookup `anchors["E-1"]` fails, so the
construction fails. -/
theorem Rectangle.make_none_of_zero_E (w h : ℚ) (nN nS nW : Nat) :
    Rectangle.make w h nN nS 0 nW = none := by
  have hl : alookup (Dir.E, ((0 : Nat) : Int) - 1) (rectAnchors w h nN nS 0 nW) = none := by
    rw [alookup_rect_E]
    rfl
  unfold Rectangle.make
  rw [hl]

/-- Bounds for the evenly-spaced interpolation value `(i+1)*L/(n+1)`. -/
theorem frac_bounds {L : ℚ} (hL : 0 < L) {i n : Nat} (hi : i < n) :
    0 ≤ ((i : ℚ) + 1) * L / ((n : ℚ) + 1) ∧ ((i : ℚ) + 1) * L / ((n : ℚ) + 1) ≤ L := by
  have hd : (0 : ℚ) < (n : ℚ) + 1 := by positivity
  have hi' : ((i : ℚ) + 1) ≤ (n : ℚ) + 1 := by
    exact_mod_cast Nat.succ_le_succ (Nat.le_of_lt hi)
  constructor
  · apply div_nonneg _ hd.le
    have h0 : (0 : ℚ) ≤ (i : ℚ) + 1 := by positivity
    exact mul_nonneg h0 hL.le
  · rw [div_le_iff₀ hd]
    nlinarith

/-- Any member of an edge list comes from an index below the count. -/
theorem mem_edgeAnchors {kp : AnchorKey × Point} {d : Dir} {n : Nat} {f : Nat → Point}
    (h : kp ∈ edgeAnchors d n f) :
    ∃ i, i < n ∧ kp = ((d, (i : Int)), f i) := by
  unfold edgeAnchors at h
  simp only [List.mem_map, List.mem_range] at h
  obtain ⟨i, hi, hk⟩ := h
  exact ⟨i, hi, hk.symm⟩

/-! ## Claim theorems -/

/-- Claim C1: for every Rectangle constructed with edge anchor counts at
least 1, the i-th anchor on an edge of length L sits at distance
`(i+1)*L/(n+1)` along that edge: `N{i} = ((i+1)*width/(numN+1), height/2)`,
`S{i} = ((i+1)*width/(numS+1), -height/2)`,
`E{i} = (width, (i+1)*height/(numE+1) - height/2)` and
`W{i} = (0, (i+1)*height/(numW+1) - height/2)`, exactly. -/
theorem rect_anchor_spacing (w h : ℚ) (nN nS nE nW : Nat) (r : Rectangle)
    (hN : 1 ≤ nN) (hS : 1 ≤ nS) (hE : 1 ≤ nE) (hWc : 1 ≤ nW)
    (hr : Rectangle.make w h nN nS nE nW = some r) :
    (∀ i, i < nN → alookup (Dir.N, (i : Int)) r.anchors =
      some ⟨((i : ℚ) + 1) * w / ((nN : ℚ) + 1), h / 2⟩) ∧
    (∀ i, i < nS → alookup (Dir.S, (i : Int)) r.anchors =
      some ⟨((i : ℚ) + 1) * w / ((nS : ℚ) + 1), -(h / 2)⟩) ∧
    (∀ i, i < nE → alookup (Dir.E, (i : Int)) r.anchors =
      some ⟨w, ((i : ℚ) + 1) * h / ((nE : ℚ) + 1) - h / 2⟩) ∧
    (∀ i, i < nW → alookup (Dir.W, (i : Int)) r.anchors =
      some ⟨0, ((i : ℚ) + 1) * h / ((nW : ℚ) + 1) - h / 2⟩) := by
  obtain ⟨-, -, -, ha, -⟩ := rectMake_spec hr
  refine ⟨fun i hi => ?_, fun i hi => ?_, fun i hi => ?_, fun i hi => ?_⟩ <;> rw [ha]
  · rw [alookup_rect_N_self _ _ _ _ _ _ i hi]; rfl
  · rw [alookup_rect_S_self _ _ _ _ _ _ i hi]; rfl
  · rw [alookup_rect_E_self _ _ _ _ _ _ i hi]; rfl
  · rw [alookup_rect_W_self _ _ _ _ _ _ i hi]; rfl

/-- Witness for C1 at `Rectangle(width=2, height=2, numN=1, numS=3, numE=1,
numW=1)`: the middle of the three South anchors (quarter-point case n=3). -/
theorem rect_anchor_spacing_witness :
    alookup (Dir.S, ((1 : Nat) : Int)) rectWit1.anchors =
      some ⟨(((1 : Nat) : ℚ) + 1) * 2 / (((3 : Nat) : ℚ) + 1), -((2 : ℚ) / 2)⟩ :=
  (rect_anchor_spacing 2 2 1 3 1 1 rectWit1 (by omega) (by omega) (by omega) (by omega)
    (rectMake_isSome (by omega))).2.1 1 (by omega)

/-- Claim C2: for every Rectangle with positive width and height and all
edge counts at least 1, the outline polygon has exactly 5 vertices, is
closed (first vertex = last vertex, the rectangle `[0,w] × [-h/2, h/2]`),
and every anchor lies exactly on one of the four edges. -/
theorem rect_outline_and_anchor_boundary (w h : ℚ) (nN nS nE nW : Nat) (r : Rectangle)
    (hw : 0 < w) (hh : 0 < h)
    (hN : 1 ≤ nN) (hS : 1 ≤ nS) (hE : 1 ≤ nE) (hWc : 1 ≤ nW)
    (hr : Rectangle.make w h nN nS nE nW = some r) :
    r.polygon.length = 5 ∧ r.polygon.head? = r.polygon.getLast? ∧
    r.polygon = [⟨0, -(h / 2)⟩, ⟨w, -(h / 2)⟩, ⟨w, h / 2⟩, ⟨0, h / 2⟩, ⟨0, -(h / 2)⟩] ∧
    ∀ kp ∈ r.anchors, onEdge w h kp.2 := by
  obtain ⟨-, -, hp, ha, -⟩ := rectMake_spec hr
  refine ⟨by rw [hp]; rfl, by rw [hp]; rfl, by rw [hp]; rfl, ?_⟩
  intro kp hkp
  rw [ha] at hkp
  unfold rectAnchors at hkp
  rcases List.mem_append.mp hkp with hm | hkp
  · obtain ⟨i, hi, hkq⟩ := mem_edgeAnchors hm
    subst hkq
    exact Or.inl ⟨rfl, (frac_bounds hw hi).1, (frac_bounds hw hi).2⟩
  rcases List.mem_append.mp hkp with hm | hkp
  · obtain ⟨i, hi, hkq⟩ := mem_edgeAnchors hm
    subst hkq
    exact Or.inr (Or.inl ⟨rfl, (frac_bounds hw hi).1, (frac_bounds hw hi).2⟩)
  rcases List.mem_append.mp hkp with hm | hm
  · obtain ⟨i, hi, hkq⟩ := mem_edgeAnchors hm
    subst hkq
    have hb := frac_bounds hh hi
    refine Or.inr (Or.inr (Or.inl ⟨rfl, ?_, ?_⟩))
    · show -(h / 2) ≤ ((i : ℚ) + 1) * h / ((nE : ℚ) + 1) - h / 2
      linarith [hb.1]
    · show ((i : ℚ) + 1) * h / ((nE : ℚ) + 1) - h / 2 ≤ h / 2
      linarith [hb.2]
  · obtain ⟨i, hi, hkq⟩ := mem_edgeAnchors hm
    subst hkq
    have hb := frac_bounds hh hi
    refine Or.inr (Or.inr (Or.inr ⟨rfl, ?_, ?_⟩))
    · show -(h / 2) ≤ ((i : ℚ) + 1) * h / ((nW : ℚ) + 1) - h / 2
      linarith [hb.1]
    · show ((i : ℚ) + 1) * h / ((nW : ℚ) + 1) - h / 2 ≤ h / 2
      linarith [hb.2]

/-- Witness for C2 at `Rectangle(width=2, height=2, numN=1, numS=3, numE=1,
numW=1)`. -/
theorem rect_outline_and_anchor_boundary_witness :
    rectWit1.polygon.length = 5 ∧ rectWit1.polygon.head? = rectWit1.polygon.getLast? ∧
    rectWit1.polygon = [⟨0, -((2 : ℚ) / 2)⟩, ⟨2, -((2 : ℚ) / 2)⟩, ⟨2, (2 : ℚ) / 2⟩,
      ⟨0, (2 : ℚ) / 2⟩, ⟨0, -((2 : ℚ) / 2)⟩] ∧
    ∀ kp ∈ rectWit1.anchors, onEdge 2 2 kp.2 :=
  rect_outline_and_anchor_boundary 2 2 1 3 1 1 rectWit1 (by norm_num) (by norm_num)
    (by omega) (by omega) (by omega) (by omega) (rectMake_isSome (by omega))

/-- Claim C3: for every Rectangle (and every MUX) constructed with
`numE ≥ 1`, the stored drop point equals the coordinate of anchor
`E{numE-1}`. -/
theorem rect_mux_drop_eq_lastE (w h : ℚ) (nN nS nE nW mE mW : Nat)
    (r : Rectangle) (m : MUX) (hE : 1 ≤ nE) (hmE : 1 ≤ mE)
    (hr : Rectangle.make w h nN nS nE nW = some r)
    (hm : MUX.make mE mW = some m) :
    alookup (Dir.E, (nE : Int) - 1) r.anchors = some r.drop ∧
    alookup (Dir.E, (mE : Int) - 1) m.anchors = some m.drop :=
  ⟨(rectMake_spec hr).2.2.2.2, (muxMake_spec hm).2.2⟩

/-- Witness for C3 at `Rectangle(width=1, height=1, numE=2)` and
`MUX(numE=2, numW=1)`. -/
theorem rect_mux_drop_eq_lastE_witness :
    alookup (Dir.E, ((2 : Nat) : Int) - 1) rectWit2.anchors = some rectWit2.drop ∧
    alookup (Dir.E, ((2 : Nat) : Int) - 1) muxWit.anchors = some muxWit.drop :=
  rect_mux_drop_eq_lastE 1 1 1 1 2 1 2 1 rectWit2 muxWit (by omega) (by omega)
    (rectMake_isSome (by omega)) (muxMake_isSome (by omega))

/-- Claim C7: constructing a Rectangle with `numE = 0` fails at construction
time — the drop-point assignment looks up the absent anchor `E{-1}` — for
every width, height and remaining counts. -/
theorem rect_numE_zero_fails (w h : ℚ) (nN nS nW : Nat) :
    Rectangle.make w h nN nS 0 nW = none :=
  Rectangle.make_none_of_zero_E w h nN nS nW

/-- Claim C8: Rectangle imposes no lower bound on width and height — the
degenerate `width=0, height=0` construction used by `CouplerDot` succeeds,
and all four anchors and the drop point coincide at the origin. -/
theorem couplerdot_degenerate_origin :
    ∃ r, couplerDotMake = some r ∧
      alookup (Dir.N, ((0 : Nat) : Int)) r.anchors = some ⟨0, 0⟩ ∧
      alookup (Dir.S, ((0 : Nat) : Int)) r.anchors = some ⟨0, 0⟩ ∧
      alookup (Dir.E, ((0 : Nat) : Int)) r.anchors = some ⟨0, 0⟩ ∧
      alookup (Dir.W, ((0 : Nat) : Int)) r.anchors = some ⟨0, 0⟩ ∧
      r.drop = ⟨0, 0⟩ := by
  refine ⟨⟨0, 0, 1, 1, 1, 1, rectPolygon 0 0, rectAnchors 0 0 1 1 1 1, rectE 0 0 1 0⟩,
    rectMake_isSome (by omega), ?_, ?_, ?_, ?_, ?_⟩
  · rw [alookup_rect_N_self 0 0 1 1 1 1 0 (by omega)]
    norm_num [rectN, Point.mk.injEq]
  · rw [alookup_rect_S_self 0 0 1 1 1 1 0 (by omega)]
    norm_num [rectS, Point.mk.injEq]
  · rw [alookup_rect_E_self 0 0 1 1 1 1 0 (by omega)]
    norm_num [rectE, Point.mk.injEq]
  · rw [alookup_rect_W_self 0 0 1 1 1 1 0 (by omega)]
    norm_num [rectWf, Point.mk.injEq]
  · show rectE 0 0 1 0 = Point.mk 0 0
    norm_num [rectE, Point.mk.injEq]

/-- The first point of the ESA spectrum path, as a function of the
pseudo-random stream. -/
theorem esaSpectrum_head (rng : Nat → ℚ) :
    (esaSpectrum rng).head? =
      some ⟨((0 : Nat) : ℚ) / 200 * (4 / 5) * dispWidth + dispXOffset + (1 / 10) * dispWidth,
        (9 / 10) * (esaJitter rng 0 esaPeaks (0, 0)).1 + dispYOffset + 3 / 20⟩ := by
  rw [esaSpectrum, show (200 : Nat) = 199 + 1 from rfl]
  rfl

/-- At `x = 0` every peak window misses, so the all-zeros stream gives
jitter `3 * 0.08 * disp_height * (0 - 0.5) = -21/250`. -/
theorem esaJitter_zero_stream :
    (esaJitter (fun _ => (0 : ℚ)) 0 esaPeaks (0, 0)).1 = -(21 / 250) := by
  norm_num [esaJitter, esaPeaks, dispHeight]

/-- At `x = 0` the all-ones stream gives jitter `+21/250`. -/
theorem esaJitter_one_stream :
    (esaJitter (fun _ => (1 : ℚ)) 0 esaPeaks (0, 0)).1 = 21 / 250 := by
  norm_num [esaJitter, esaPeaks, dispHeight]

/-- Claim C4 is refuted by the code: at `Rectangle(width=1, height=1,
numE=2)` the code computes `E0 = (1, -1/6)` and `E1 = (1, 1/6)`, so the
East-edge y-coordinates strictly increase with the index (`E0` is the
bottom-most anchor, `E{numE-1}` the top-most), contrary to the documented
top-to-bottom ordering. -/
theorem rect_east_order_at_failing_input :
    alookup (Dir.E, ((0 : Nat) : Int)) (rectAnchors 1 1 1 1 2 1) =
      some ⟨1, -(1 / 6)⟩ ∧
    alookup (Dir.E, ((1 : Nat) : Int)) (rectAnchors 1 1 1 1 2 1) =
      some ⟨1, 1 / 6⟩ ∧
    ¬ ((-(1 / 6) : ℚ) > (1 / 6 : ℚ)) := by
  refine ⟨?_, ?_, by norm_num⟩
  · rw [alookup_rect_E_self 1 1 1 1 2 1 0 (by omega)]
    norm_num [rectE, Point.mk.injEq]
  · rw [alookup_rect_E_self 1 1 1 1 2 1 1 (by omega)]
    norm_num [rectE, Point.mk.injEq]

/-- Claim C5: each two-port element exposes exactly the anchor pair in/out
or W/E, and the pair separation matches the documented geometry: Bend90's
anchors are `radius` apart along each axis, Bend180's are `2*radius`
apart, PolCtrl's are `length = 6*radius` apart, VOA's are `width` apart. -/
theorem twoport_anchor_pairs (radius : ℚ) :
    ((bend90Anchors radius).map Prod.fst = ["in", "out"] ∧
      ∃ p q, alookup "in" (bend90Anchors radius) = some p ∧
        alookup "out" (bend90Anchors radius) = some q ∧
        p.x - q.x = radius ∧ q.y - p.y = radius) ∧
    ((bend180Anchors radius).map Prod.fst = ["in", "out"] ∧
      ∃ p q, alookup "in" (bend180Anchors radius) = some p ∧
        alookup "out" (bend180Anchors radius) = some q ∧
        p.x - q.x = 2 * radius ∧ p.y = q.y) ∧
    (polCtrlAnchors.map Prod.fst = ["in", "out"] ∧
      polCtrlLength = 6 * polCtrlRadius ∧
      ∃ p q, alookup "in" polCtrlAnchors = some p ∧
        alookup "out" polCtrlAnchors = some q ∧
        q.x - p.x = polCtrlLength ∧ p.y = q.y) ∧
    (voaAnchors.map Prod.fst = ["W", "E"] ∧
      ∃ p q, alookup "W" voaAnchors = some p ∧ alookup "E" voaAnchors = some q ∧
        q.x - p.x = voaWidth ∧ p.y = q.y) := by
  refine ⟨⟨rfl, ⟨radius, 0⟩, ⟨0, radius⟩, ?_, ?_, by ring, by ring⟩,
    ⟨rfl, ⟨radius, 0⟩, ⟨-radius, 0⟩, ?_, ?_, by ring, rfl⟩,
    ⟨rfl, by norm_num [polCtrlLength, polCtrlRadius], ⟨0, 0⟩, ⟨polCtrlLength, 0⟩,
      ?_, ?_, by ring, rfl⟩,
    ⟨rfl, ⟨0, 0⟩, ⟨voaWidth, 0⟩, ?_, ?_, by ring, rfl⟩⟩ <;>
  simp [alookup, bend90Anchors, bend180Anchors, polCtrlAnchors, voaAnchors]

/-- Claim C9: the `numX ≥ 1` precondition is only effectively enforced for
the East edge: with `numE ≥ 1`, setting `numN`, `numS` or `numW` to 0
still succeeds, merely produces no anchors on that edge and leaves the
other edges and the drop point unaffected; only `numE = 0` fails. -/
theorem rect_zero_edge_counts (w h : ℚ) (nN nS nE nW : Nat) (hE : 1 ≤ nE) :
    (∃ r r', Rectangle.make w h 0 nS nE nW = some r ∧
      Rectangle.make w h nN nS nE nW = some r' ∧
      (∀ k : Int, alookup (Dir.N, k) r.anchors = none) ∧
      (∀ (d : Dir) (k : Int), d ≠ Dir.N →
        alookup (d, k) r.anchors = alookup (d, k) r'.anchors) ∧
      r.drop = r'.drop) ∧
    (∃ r r', Rectangle.make w h nN 0 nE nW = some r ∧
      Rectangle.make w h nN nS nE nW = some r' ∧
      (∀ k : Int, alookup (Dir.S, k) r.anchors = none) ∧
      (∀ (d : Dir) (k : Int), d ≠ Dir.S →
        alookup (d, k) r.anchors = alookup (d, k) r'.anchors) ∧
      r.drop = r'.drop) ∧
    (∃ r r', Rectangle.make w h nN nS nE 0 = some r ∧
      Rectangle.make w h nN nS nE nW = some r' ∧
      (∀ k : Int, alookup (Dir.W, k) r.anchors = none) ∧
      (∀ (d : Dir) (k : Int), d ≠ Dir.W →
        alookup (d, k) r.anchors = alookup (d, k) r'.anchors) ∧
      r.drop = r'.drop) ∧
    Rectangle.make w h nN nS 0 nW = none := by
  refine ⟨⟨_, _, rectMake_isSome hE, rectMake_isSome hE, ?_, ?_, rfl⟩,
    ⟨_, _, rectMake_isSome hE, rectMake_isSome hE, ?_, ?_, rfl⟩,
    ⟨_, _, rectMake_isSome hE, rectMake_isSome hE, ?_, ?_, rfl⟩,
    Rectangle.make_none_of_zero_E w h nN nS nW⟩
  · intro k
    show alookup (Dir.N, k) (rectAnchors w h 0 nS nE nW) = none
    rw [alookup_rect_N]
    rfl
  · intro d k hd
    cases d
    · exact absurd rfl hd
    · show alookup (Dir.S, k) (rectAnchors w h 0 nS nE nW) =
        alookup (Dir.S, k) (rectAnchors w h nN nS nE nW)
      rw [alookup_rect_S, alookup_rect_S]
    · show alookup (Dir.E, k) (rectAnchors w h 0 nS nE nW) =
        alookup (Dir.E, k) (rectAnchors w h nN nS nE nW)
      rw [alookup_rect_E, alookup_rect_E]
    · show alookup (Dir.W, k) (rectAnchors w h 0 nS nE nW) =
        alookup (Dir.W, k) (rectAnchors w h nN nS nE nW)
      rw [alookup_rect_W, alookup_rect_W]
  · intro k
    show alookup (Dir.S, k) (rectAnchors w h nN 0 nE nW) = none
    rw [alookup_rect_S]
    rfl
  · intro d k hd
    cases d
    · show alookup (Dir.N, k) (rectAnchors w h nN 0 nE nW) =
        alookup (Dir.N, k) (rectAnchors w h nN nS nE nW)
      rw [alookup_rect_N, alookup_rect_N]
    · exact absurd rfl hd
    · show alookup (Dir.E, k) (rectAnchors w h nN 0 nE nW) =
        alookup (Dir.E, k) (rectAnchors w h nN nS nE nW)
      rw [alookup_rect_E, alookup_rect_E]
    · show alookup (Dir.W, k) (rectAnchors w h nN 0 nE nW) =
        alookup (Dir.W, k) (rectAnchors w h nN nS nE nW)
      rw [alookup_rect_W, alookup_rect_W]
  · intro k
    show alookup (Dir.W, k) (rectAnchors w h nN nS nE 0) = none
    rw [alookup_rect_W]
    rfl
  · intro d k hd
    cases d
    · show alookup (Dir.N, k) (rectAnchors w h nN nS nE 0) =
        alookup (Dir.N, k) (rectAnchors w h nN nS nE nW)
      rw [alookup_rect_N, alookup_rect_N]
    · show alookup (Dir.S, k) (rectAnchors w h nN nS nE 0) =
        alookup (Dir.S, k) (rectAnchors w h nN nS nE nW)
      rw [alookup_rect_S, alookup_rect_S]
    · show alookup (Dir.E, k) (rectAnchors w h nN nS nE 0) =
        alookup (Dir.E, k) (rectAnchors w h nN nS nE nW)
      rw [alookup_rect_E, alookup_rect_E]
    · exact absurd rfl hd

/-- Witness for C9 at `width = height = 1` and all remaining counts 1. -/
theorem rect_zero_edge_counts_witness :
    (∃ r r', Rectangle.make 1 1 0 1 1 1 = some r ∧
      Rectangle.make 1 1 1 1 1 1 = some r' ∧
      (∀ k : Int, alookup (Dir.N, k) r.anchors = none) ∧
      (∀ (d : Dir) (k : Int), d ≠ Dir.N →
        alookup (d, k) r.anchors = alookup (d, k) r'.anchors) ∧
      r.drop = r'.drop) ∧
    (∃ r r', Rectangle.make 1 1 1 0 1 1 = some r ∧
      Rectangle.make 1 1 1 1 1 1 = some r' ∧
      (∀ k : Int, alookup (Dir.S, k) r.anchors = none) ∧
      (∀ (d : Dir) (k : Int), d ≠ Dir.S →
        alookup (d, k) r.anchors = alookup (d, k) r'.anchors) ∧
      r.drop = r'.drop) ∧
    (∃ r r', Rectangle.make 1 1 1 1 1 0 = some r ∧
      Rectangle.make 1 1 1 1 1 1 = some r' ∧
      (∀ k : Int, alookup (Dir.W, k) r.anchors = none) ∧
      (∀ (d : Dir) (k : Int), d ≠ Dir.W →
        alookup (d, k) r.anchors = alookup (d, k) r'.anchors) ∧
      r.drop = r'.drop) ∧
    Rectangle.make 1 1 1 1 0 1 = none :=
  rect_zero_edge_counts 1 1 1 1 1 1 (by omega)

/-- Claim C10: Rectangle anchors are mirror-symmetric: whenever
`numN = numS`, anchor `S{i}` equals `N{i}` reflected across the horizontal
axis (same x, negated y); whenever `numE = numW`, anchor `W{i}` equals
`E{i}` carried from `x = width` to `x = 0` at the same height. -/
theorem rect_mirror_symmetry (w h : ℚ) (n m nN nS nE nW : Nat)
    (r r' : Rectangle)
    (hr : Rectangle.make w h n n nE nW = some r)
    (hr' : Rectangle.make w h nN nS m m = some r') :
    (∀ i, i < n → ∀ p, alookup (Dir.N, (i : Int)) r.anchors = some p →
      alookup (Dir.S, (i : Int)) r.anchors = some ⟨p.x, -p.y⟩) ∧
    (∀ i, i < m → ∀ p, alookup (Dir.E, (i : Int)) r'.anchors = some p →
      p.x = w ∧ alookup (Dir.W, (i : Int)) r'.anchors = some ⟨0, p.y⟩) := by
  obtain ⟨-, -, -, ha, -⟩ := rectMake_spec hr
  obtain ⟨-, -, -, ha', -⟩ := rectMake_spec hr'
  constructor
  · intro i hi p hp
    rw [ha] at hp ⊢
    rw [alookup_rect_N_self _ _ _ _ _ _ i hi] at hp
    obtain rfl := (Option.some.inj hp).symm
    rw [alookup_rect_S_self _ _ _ _ _ _ i hi]
    rfl
  · intro i hi p hp
    rw [ha'] at hp ⊢
    rw [alookup_rect_E_self _ _ _ _ _ _ i hi] at hp
    obtain rfl := (Option.some.inj hp).symm
    refine ⟨rfl, ?_⟩
    rw [alookup_rect_W_self _ _ _ _ _ _ i hi]
    rfl

/-- Witness for C10 at `Rectangle(1, 1, numN=numS=1, numE=2, numW=1)` and
`Rectangle(1, 1, numN=numS=1, numE=numW=2)`. -/
theorem rect_mirror_symmetry_witness :
    alookup (Dir.S, ((0 : Nat) : Int)) rectWit2.anchors =
      some ⟨(rectN 1 1 1 0).x, -(rectN 1 1 1 0).y⟩ ∧
    (rectE 1 1 2 0).x = 1 ∧
    alookup (Dir.W, ((0 : Nat) : Int)) rectWit4.anchors =
      some ⟨0, (rectE 1 1 2 0).y⟩ :=
  have hthm := rect_mirror_symmetry 1 1 1 2 1 1 2 1 rectWit2 rectWit4
    (rectMake_isSome (by omega)) (rectMake_isSome (by omega))
  have hN : alookup (Dir.N, ((0 : Nat) : Int)) rectWit2.anchors =
      some (rectN 1 1 1 0) := alookup_rect_N_self 1 1 1 1 2 1 0 (by omega)
  have hEq : alookup (Dir.E, ((0 : Nat) : Int)) rectWit4.anchors =
      some (rectE 1 1 2 0) := alookup_rect_E_self 1 1 1 1 2 2 0 (by omega)
  ⟨hthm.1 0 (by omega) (rectN 1 1 1 0) hN,
    (hthm.2 0 (by omega) (rectE 1 1 2 0) hEq).1,
    (hthm.2 0 (by omega) (rectE 1 1 2 0) hEq).2⟩

/-- Claim C6 (counterexample): the claim excepts only the two randomized
elements OSA and Scope, but ESA also draws pseudo-random jitter — two
constructions of `ESA()` (default parameters `width=1.85, height=1.25`,
all counts 1) whose pseudo-random draws differ yield different coordinate
lists, so ESA is not deterministic across two runs sharing the global
random state. -/
theorem esa_two_runs_differ :
    ESA.make (fun _ => 0) (37 / 20) (5 / 4) 1 1 1 1 ≠
      ESA.make (fun _ => 1) (37 / 20) (5 / 4) 1 1 1 1 := by
  intro hc
  unfold ESA.make at hc
  rw [rectMake_isSome (by omega)] at hc
  have hs : esaSpectrum (fun _ => (0 : ℚ)) = esaSpectrum (fun _ => (1 : ℚ)) := by
    injection hc with hc
    exact congrArg ESA.spectrum hc
  have hh := congrArg List.head? hs
  rw [esaSpectrum_head, esaSpectrum_head, esaJitter_zero_stream,
    esaJitter_one_stream] at hh
  simp only [Option.some.injEq, Point.mk.injEq] at hh
  have hy := hh.2
  norm_num [dispYOffset] at hy

/-- Claim C6 (amended): the three randomized waveform elements OSA, ESA and
Scope produce identical base rectangles (polygon, anchors and drop point)
and identical fixed faceplate decorations across two constructions with
arbitrary, possibly different pseudo-random streams — the randomness
affects only the decorative waveform path.  All remaining element
constructors are pure functions of their parameters. -/
theorem randomized_anchor_stability (rng1 rng2 sine : Nat → ℚ) (w h : ℚ)
    (nN nS nE nW : Nat) :
    (OSA.make rng1 w h nN nS nE nW).map (fun e => (e.base, e.screen)) =
      (OSA.make rng2 w h nN nS nE nW).map (fun e => (e.base, e.screen)) ∧
    (ESA.make rng1 w h nN nS nE nW).map (fun e => (e.base, e.screen)) =
      (ESA.make rng2 w h nN nS nE nW).map (fun e => (e.base, e.screen)) ∧
    (Scope.make sine rng1 w h nN nS nE nW).map (fun e => (e.base, e.screen)) =
      (Scope.make sine rng2 w h nN nS nE nW).map (fun e => (e.base, e.screen)) := by
  refine ⟨?_, ?_, ?_⟩ <;>
    cases hr : Rectangle.make w h nN nS nE nW <;>
      simp [OSA.make, ESA.make, Scope.make, hr]

end SDComms
